import Mathlib

/-!
Verification of the CoastSeg excerpt (map_UI.py and the test suite of the
common module) against its natural-language specification.

The UI layer of map_UI.py is embedded shallowly: widget state that the
callbacks touch (map cursor style, button disabled flags, the settings
HTML view) becomes an explicit state record, the delegated coastseg_map
call becomes a parameter giving its outcome (normal return or a raised
exception), and each callback becomes a pure function from the pre-call
state and that outcome to the post-call state together with the list of
coastseg_map methods invoked and the list of exception_handler
.handle_exception invocations.

The common module itself is not in the excerpt (only its test suite is);
its functions are modelled from the specification and the visible tests,
and are marked as such in their doc comments.
-/

/-! ### String helpers (Python `in` on lowercased strings) -/

/-- Lowercasing a string character by character, the embedding of Python
`str.lower` as used on button descriptions (all of which are ASCII). -/
def strLower (s : String) : String := ⟨s.data.map Char.toLower⟩

/-- Embedding of the Python substring test `needle in hay`. -/
def strContains (hay needle : String) : Prop := needle.data <:+: hay.data

instance (hay needle : String) : Decidable (strContains hay needle) :=
  inferInstanceAs (Decidable (needle.data <:+: hay.data))

/-! ### Exceptions and the exception handler -/

/-- Python exception as seen by the handlers of map_UI.py: either a
google_auth_exceptions.RefreshError or any other Exception, with its
message.  RefreshError is a subclass of Exception in Python, so a clause
`except Exception` catches both constructors. -/
inductive PyExn where
  | refreshError (msg : String)
  | exception (msg : String)
deriving DecidableEq

/-- Whether a clause `except Exception` catches the exception: always,
since every exception in this file derives from Exception. -/
def PyExn.isException : PyExn → Bool := fun _ => true

/-- Whether a clause `except google_auth_exceptions.RefreshError` catches
the exception. -/
def PyExn.isRefreshError : PyExn → Bool
  | .refreshError _ => true
  | .exception _ => false

/-- One invocation of exception_handler.handle_exception: the error object
and the optional title and msg keyword arguments. -/
structure HandlerCall where
  error : PyExn
  title : Option String
  msg : Option String
deriving DecidableEq

/-- The generic invocation `handle_exception(error, warning_box)` used by
almost every callback: no title, no msg. -/
def HandlerCall.generic (e : PyExn) : HandlerCall := ⟨e, none, none⟩

/-! ### UI state and callback results -/

/-- The mutable UI state the callbacks of map_UI.py read and write: the
map cursor style (the value of coastseg_map.map.default_style, recorded
as the cursor string), the disabled flags of the four action buttons, and
the value of the settings HTML view. -/
structure UIState where
  cursor : String
  genDisabled : Bool
  extractDisabled : Bool
  computeDisabled : Bool
  downloadDisabled : Bool
  settingsHtml : String
deriving DecidableEq

/-- What one callback run produced: the final UI state, the coastseg_map
methods that were actually invoked (in order), and the
handle_exception invocations that were made. -/
structure CallbackResult where
  state : UIState
  calls : List String
  handled : List HandlerCall
deriving DecidableEq

/-- Runs a list of delegated coastseg_map calls inside one try block:
each call either returns normally (beh gives none) or raises (beh gives
some e); the first raise aborts the rest of the block.  Returns the
calls made and the exception that escaped the block, if any. -/
def runDelegated (beh : String → Option PyExn) : List String → List String × Option PyExn
  | [] => ([], none)
  | n :: rest =>
    match beh n with
    | some e => ([n], some e)
    | none =>
      let r := runDelegated beh rest
      (n :: r.1, r.2)

/-! ### The UI callbacks of map_UI.py -/

/-- Embedding of UI.gen_roi_clicked (map_UI.py lines 719-741): sets the
cursor to wait and disables the generate button, delegates to
coastseg_map.load_feature_on_map, on exception sets the cursor to default
and calls handle_exception, on normal return sets the cursor to default,
then unconditionally sets the cursor to default and re-enables the
button. -/
def genRoiClicked (s : UIState) (outcome : Option PyExn) : CallbackResult :=
  let s1 := { s with cursor := "wait", genDisabled := true }
  match outcome with
  | some e =>
    let s2 := { s1 with cursor := "default" }
    let s3 := { s2 with cursor := "default" }
    ⟨{ s3 with genDisabled := false }, ["load_feature_on_map"], [HandlerCall.generic e]⟩
  | none =>
    let s2 := { s1 with cursor := "default" }
    let s3 := { s2 with cursor := "default" }
    ⟨{ s3 with genDisabled := false }, ["load_feature_on_map"], []⟩

/-- Embedding of UI.extract_shorelines_button_clicked (map_UI.py lines
805-816): wait cursor, disable button, delegate to
coastseg_map.extract_all_shorelines, handle any exception, re-enable the
button and set the cursor to default. -/
def extractShorelinesButtonClicked (s : UIState) (outcome : Option PyExn) : CallbackResult :=
  let s1 := { s with cursor := "wait", extractDisabled := true }
  let handled := match outcome with
    | some e => [HandlerCall.generic e]
    | none => []
  ⟨{ s1 with extractDisabled := false, cursor := "default" }, ["extract_all_shorelines"], handled⟩

/-- Embedding of UI.compute_transect_button_clicked (map_UI.py lines
818-829), same shape as the extract callback around
coastseg_map.compute_transects. -/
def computeTransectButtonClicked (s : UIState) (outcome : Option PyExn) : CallbackResult :=
  let s1 := { s with cursor := "wait", computeDisabled := true }
  let handled := match outcome with
    | some e => [HandlerCall.generic e]
    | none => []
  ⟨{ s1 with computeDisabled := false, cursor := "default" }, ["compute_transects"], handled⟩

/-- Embedding of UI.download_button_clicked (map_UI.py lines 831-854).
The body is a nested try: the inner block calls
coastseg_map.download_imagery and catches Exception generically; the
outer block catches google_auth_exceptions.RefreshError with the
tailored title and message.  Since RefreshError is a subclass of
Exception, an exception reaches the outer clause only if it escapes the
inner `except Exception` clause. -/
def downloadButtonClicked (s : UIState) (outcome : Option PyExn) : CallbackResult :=
  let s1 := { s with cursor := "wait", downloadDisabled := true }
  let s2 := { s1 with downloadDisabled := true }
  let inner : List HandlerCall × Option PyExn :=
    match outcome with
    | none => ([], none)
    | some e => if e.isException then ([HandlerCall.generic e], none) else ([], some e)
  let handled :=
    match inner.2 with
    | some e =>
      if e.isRefreshError then
        inner.1 ++ [⟨e, some "Authentication Error",
          some "Please authenticate with Google using the cell above: \n Authenticate and Initialize with Google Earth Engine (GEE)"⟩]
      else inner.1
    | none => inner.1
  ⟨{ s2 with downloadDisabled := false, cursor := "default" }, ["download_imagery"], handled⟩

/-- Embedding of UI.save_settings_clicked (map_UI.py lines 759-803): if
the satellite selection is non-empty, build the settings dict, delegate
to coastseg_map.save_settings and refresh the settings HTML, handling
any exception; if the selection is empty, raise
Exception("Must select at least one satellite first") and route it to
handle_exception, touching nothing else.  newHtml is the refreshed HTML
computed from coastseg_map.settings after a successful save. -/
def saveSettingsClicked (satList : List String) (s : UIState) (outcome : Option PyExn)
    (newHtml : String) : CallbackResult :=
  if satList ≠ [] then
    match outcome with
    | none => ⟨{ s with settingsHtml := newHtml }, ["save_settings"], []⟩
    | some e => ⟨s, ["save_settings"], [HandlerCall.generic e]⟩
  else
    ⟨s, [], [HandlerCall.generic (PyExn.exception "Must select at least one satellite first")]⟩

/-- The delegated calls selected by the substring dispatch of
UI.load_button_clicked (map_UI.py lines 743-757) on the lowercased
button description. -/
def loadDispatch (desc : String) : List String :=
  (if strContains (strLower desc) "shoreline" then ["load_feature_on_map shoreline"] else []) ++
  (if strContains (strLower desc) "transects" then ["load_feature_on_map transects"] else [])

/-- Embedding of UI.load_button_clicked: wait cursor, run the dispatched
calls inside one try block, handle any exception, then set the cursor to
default. -/
def loadButtonClicked (desc : String) (beh : String → Option PyExn) (s : UIState) :
    CallbackResult :=
  let s1 := { s with cursor := "wait" }
  let r := runDelegated beh (loadDispatch desc)
  let handled := match r.2 with
    | some e => [HandlerCall.generic e]
    | none => []
  ⟨{ s1 with cursor := "default" }, r.1, handled⟩

/-- The delegated calls selected by the substring dispatch of
UI.remove_feature_from_map (map_UI.py lines 959-978). -/
def removeDispatch (desc : String) : List String :=
  (if strContains (strLower desc) "shoreline" then ["remove_shoreline"] else []) ++
  (if strContains (strLower desc) "transects" then ["remove_transects"] else []) ++
  (if strContains (strLower desc) "bbox" then ["remove_bbox"] else []) ++
  (if strContains (strLower desc) "rois" then ["remove_all_rois"] else [])

/-- Embedding of UI.remove_feature_from_map: run the dispatched calls in
one try block and handle any exception; no cursor or disabled flag is
touched. -/
def removeFeatureFromMap (desc : String) (beh : String → Option PyExn) (s : UIState) :
    CallbackResult :=
  let r := runDelegated beh (removeDispatch desc)
  let handled := match r.2 with
    | some e => [HandlerCall.generic e]
    | none => []
  ⟨s, r.1, handled⟩

/-- The delegated calls selected by the substring dispatch of
UI.save_to_file_btn_clicked (map_UI.py lines 980-1004). -/
def saveDispatch (desc : String) : List String :=
  (if strContains (strLower desc) "shoreline" then ["save_feature_to_file shoreline"] else []) ++
  (if strContains (strLower desc) "transects" then ["save_feature_to_file transects"] else []) ++
  (if strContains (strLower desc) "bbox" then ["save_feature_to_file bounding box"] else []) ++
  (if strContains (strLower desc) "rois" then ["save_feature_to_file ROI"] else [])

/-- Embedding of UI.save_to_file_btn_clicked: run the dispatched calls in
one try block and handle any exception. -/
def saveToFileBtnClicked (desc : String) (beh : String → Option PyExn) (s : UIState) :
    CallbackResult :=
  let r := runDelegated beh (saveDispatch desc)
  let handled := match r.2 with
    | some e => [HandlerCall.generic e]
    | none => []
  ⟨s, r.1, handled⟩

/-- The descriptions the UI itself assigns to the remove button: the
initial description uses the initial radio value Shoreline, and the radio
observer assigns Remove followed by the selected option (map_UI.py lines
526-542). -/
def removeButtonDescs : List String :=
  ["Remove Shoreline", "Remove Transects", "Remove Bbox", "Remove ROIs"]

/-- The descriptions the UI itself assigns to the load button of the
load-feature-on-map box (map_UI.py lines 499-515): initially Load
Transects, and Load followed by the selected option on radio change. -/
def loadButtonDescs : List String := ["Load Transects", "Load Shoreline"]

/-- The descriptions the UI itself assigns to the save button (map_UI.py
lines 464-486): initially Save Shoreline, and Save option to file on
radio change. -/
def saveButtonDescs : List String :=
  ["Save Shoreline", "Save Shoreline to file", "Save Transects to file",
   "Save Bbox to file", "Save ROIs to file"]

/-! ### File choosers -/

/-- The observable configuration of an ipyfilechooser FileChooser as set
by create_file_chooser. -/
structure FileChooserModel where
  filterPattern : List String
  chooserTitle : String
deriving DecidableEq

/-- Embedding of create_file_chooser (map_UI.py lines 35-75): the filter
pattern is always set to the single glob for geojson files, and the
title defaults to a generic one unless a title argument is given. -/
def createFileChooser (title : Option String) : FileChooserModel :=
  { filterPattern := ["*.geojson"],
    chooserTitle :=
      match title with
      | none => "<b>Select a geojson file</b>"
      | some t => "<b>" ++ t ++ "</b>" }

/-- The chooser built by UI.on_load_configs_clicked (map_UI.py lines
874-893): create_file_chooser with no title argument. -/
def onLoadConfigsChooser : FileChooserModel := createFileChooser none

/-- The title UI.load_feature_from_file picks from the button description
before building its chooser (map_UI.py lines 941-953). -/
def loadFeatureFromFileTitle (desc : String) : String :=
  let t0 := "Select a geojson file"
  let t1 := if strContains (strLower desc) "shoreline" then "Select shoreline geojson file" else t0
  let t2 := if strContains (strLower desc) "transects" then "Select transects geojson file" else t1
  let t3 := if strContains (strLower desc) "bbox" then "Select bounding box geojson file" else t2
  if strContains (strLower desc) "rois" then "Select ROI geojson file" else t3

/-- The chooser built by UI.load_feature_from_file. -/
def loadFeatureFromFileChooser (desc : String) : FileChooserModel :=
  createFileChooser (some (loadFeatureFromFileTitle desc))

/-! ### The units radio observer -/

/-- One side of an ipywidgets change event as this observer reads it: the
code indexes the side with the key index, so the side is modelled as a
record with that field. -/
structure RadioEventSide where
  index : Nat
deriving DecidableEq

/-- The change event passed to units_radio_changed, holding the old and
the new state of the radio. -/
structure RadioEvent where
  old : RadioEventSide
  new : RadioEventSide
deriving DecidableEq

/-- Embedding of units_radio_changed (map_UI.py lines 190-224): reads the
index of the OLD side of the event, picks 980000000 for index 0 and 98
for index 1 (keeping the initial 980000000 otherwise), and assigns that
value to the max of both the small and the large ROI area textbox.  The
returned pair is (small textbox max, large textbox max). -/
def unitsRadioChanged (change : RadioEvent) : Nat × Nat :=
  let index := change.old.index
  let area1 := 980000000
  let area2 := if index = 0 then 980000000 else if index = 1 then 98 else area1
  (area2, area2)

/-! ### The settings HTML view -/

/-- The 14 settings keys displayed by UI.get_settings_html, in display
order. -/
def displayedSettingsKeys : List String :=
  ["sat_list", "dates", "landsat_collection", "cloud_thresh", "dist_clouds",
   "output_epsg", "save_figure", "min_beach_area", "min_length_sl",
   "cloud_mask_issue", "sand_color", "pan_off", "max_dist_ref", "along_dist"]

/-- Lookup in the defaultdict wrapped around the settings dictionary: the
value stored under the key, or the string unknown when the key is
absent.  The dictionary is embedded as an association list of key and
rendered value. -/
def settingValue (settings : List (String × String)) (k : String) : String :=
  (settings.lookup k).getD "unknown"

/-- Embedding of UI.get_settings_html (map_UI.py lines 559-596): the
template string with each format placeholder replaced by the defaultdict
lookup of the corresponding key. -/
def getSettingsHtml (settings : List (String × String)) : String :=
  " \n        <h2>Settings</h2>\n        <p>sat_list: " ++ settingValue settings "sat_list" ++
  "</p>\n        <p>dates: " ++ settingValue settings "dates" ++
  "</p>\n        <p>landsat_collection: " ++ settingValue settings "landsat_collection" ++
  "</p>\n        <p>cloud_thresh: " ++ settingValue settings "cloud_thresh" ++
  "</p>\n        <p>dist_clouds: " ++ settingValue settings "dist_clouds" ++
  "</p>\n        <p>output_epsg: " ++ settingValue settings "output_epsg" ++
  "</p>\n        <p>save_figure: " ++ settingValue settings "save_figure" ++
  "</p>\n        <p>min_beach_area: " ++ settingValue settings "min_beach_area" ++
  "</p>\n        <p>min_length_sl: " ++ settingValue settings "min_length_sl" ++
  "</p>\n        <p>cloud_mask_issue: " ++ settingValue settings "cloud_mask_issue" ++
  "</p>\n        <p>sand_color: " ++ settingValue settings "sand_color" ++
  "</p>\n        <p>pan_off: " ++ settingValue settings "pan_off" ++
  "</p>\n        <p>max_dist_ref: " ++ settingValue settings "max_dist_ref" ++
  "</p>\n        <p>along_dist: " ++ settingValue settings "along_dist" ++
  "</p>\n        "

/-! ### The common module (spec-modelled)

The implementation of the common module is not part of the excerpt; only
its test suite is.  The definitions below are therefore modelled from the
specification and the behaviour the tests pin down. -/

/-- One geometry row of a geodataframe, identified by an opaque geometry
identifier. -/
structure Feature where
  geomId : Nat
deriving DecidableEq

/-- A geodataframe: a list of geometry rows together with a CRS given as
a numeric EPSG code. -/
structure GeoDataFrame where
  rows : List Feature
  crs : Nat
deriving DecidableEq

/-- A row of the config geodataframe: a geometry row tagged with the type
column value. -/
structure TaggedRow where
  ftype : String
  geomId : Nat
deriving DecidableEq

/-- The config geodataframe assembled by create_config_gdf. -/
structure ConfigGdf where
  rows : List TaggedRow
  crs : Nat
deriving DecidableEq

/-- Modelled from the spec: common.set_crs_or_initialize_empty is not
under src.  Per the spec and tests, a None or empty input yields an empty
geodataframe carrying the requested CRS, and a non-empty input is
reprojected to the requested CRS with its rows kept. -/
def set_crs_or_initialize_empty (gdf : Option GeoDataFrame) (epsg : Nat) : GeoDataFrame :=
  match gdf with
  | none => ⟨[], epsg⟩
  | some g => ⟨g.rows, epsg⟩

/-- Tagging every row of a geodataframe with a type column value, the
column assignment done by create_config_gdf per input. -/
def tagWithType (t : String) (g : GeoDataFrame) : List TaggedRow :=
  g.rows.map (fun f => ⟨t, f.geomId⟩)

/-- The concatenation step of create_config_gdf: each optional input is
normalized with set_crs_or_initialize_empty, tagged with its type value,
and the results are concatenated in roi, shoreline, transect, bbox
order. -/
def assembleConfig (rois shorelines transects bbox : Option GeoDataFrame) (epsg : Nat) :
    ConfigGdf :=
  ⟨tagWithType "roi" (set_crs_or_initialize_empty rois epsg) ++
   tagWithType "shoreline" (set_crs_or_initialize_empty shorelines epsg) ++
   tagWithType "transect" (set_crs_or_initialize_empty transects epsg) ++
   tagWithType "bbox" (set_crs_or_initialize_empty bbox epsg), epsg⟩

/-- Modelled from the spec: common.create_config_gdf is not under src.
Per the spec and tests, when no epsg_code is supplied the CRS is taken
from a non-empty rois input, and a None or empty rois input without an
epsg_code raises a ValueError; otherwise the tagged inputs are
concatenated into a config geodataframe carrying the requested CRS. -/
def create_config_gdf (rois shorelines transects bbox : Option GeoDataFrame)
    (epsg_code : Option Nat) : Except String ConfigGdf :=
  match epsg_code with
  | some epsg => .ok (assembleConfig rois shorelines transects bbox epsg)
  | none =>
    match rois with
    | none => .error "ValueError: epsg_code must be provided when rois is None or empty"
    | some r =>
      if r.rows.isEmpty then
        .error "ValueError: epsg_code must be provided when rois is None or empty"
      else
        .ok (assembleConfig rois shorelines transects bbox r.crs)

/-- Whether an optional geodataframe is non-None and non-empty. -/
def hasRows : Option GeoDataFrame → Bool
  | none => false
  | some g => !g.rows.isEmpty

/-- The geometry identifiers of an optional geodataframe, in row order. -/
def rowIds : Option GeoDataFrame → List Nat
  | none => []
  | some g => g.rows.map Feature.geomId

/-- A point location in geographic coordinates (EPSG 4326), the location
from which the UTM zone of a geometry is derived.  Coordinates are exact
rationals. -/
structure GeoPoint where
  lon : ℚ
  lat : ℚ
deriving DecidableEq

/-- The UTM zone number of a longitude: one plus the six-degree band
counted from longitude -180, wrapped modulo 60. -/
def utmZoneNumber (lon : ℚ) : Nat :=
  ((Int.floor ((lon + 180) / 6)).emod 60 + 1).toNat

/-- Modelled from the spec: common.convert_wgs_to_utm is not under src.
Per the spec and tests it returns the EPSG code of the local UTM zone:
the 326 series for non-negative latitudes and the 327 series for
negative latitudes, with the zone number taken from the longitude.  The
source returns the code as a zero-padded decimal string; the model
returns it numerically. -/
def convert_wgs_to_utm (lon lat : ℚ) : Nat :=
  if 0 ≤ lat then 32600 + utmZoneNumber lon else 32700 + utmZoneNumber lon

/-- Modelled from the spec: common.get_epsg_from_geometry is not under
src.  It derives the UTM EPSG code from the location of the geometry
itself, embedded here as the representative point of the geometry. -/
def get_epsg_from_geometry (g : GeoPoint) : Nat :=
  convert_wgs_to_utm g.lon g.lat

/-- Modelled from the spec: common.get_roi_area is not under src.  Per
the spec it first reprojects the geometry to the UTM zone determined
from the geometry location and only then computes the area; the area
measure of a geometry in a given CRS is abstracted as the parameter
areaInEpsg. -/
def get_roi_area (areaInEpsg : Nat → GeoPoint → ℚ) (g : GeoPoint) : ℚ :=
  areaInEpsg (get_epsg_from_geometry g) g

/-! ### Helper lemmas -/

/-- Inside one try block, a dispatch list with a single selected call
produces exactly one coastseg_map invocation, whether that call raises
or not. -/
theorem runDelegated_singleton_len (beh : String → Option PyExn) (n : String) :
    (runDelegated beh [n]).1.length = 1 := by
  cases h : beh n <;> simp [runDelegated, h]

/-- Length form of the previous lemma usable directly on a computed
dispatch list. -/
theorem runDelegated_len_one (beh : String → Option PyExn) (l : List String)
    (h : l.length = 1) : (runDelegated beh l).1.length = 1 := by
  match l, h with
  | [n], _ => exact runDelegated_singleton_len beh n

/-! ### Claims about map_UI.py -/

/-- Claim C1, amended.  Every modelled UI callback routes an exception of
its delegated coastseg_map call to exception_handler.handle_exception,
and sets the cursor style and the clicked button disabled flag to the
fixed idle values, cursor default and disabled false, whether the
delegated call returns normally or raises.  These coincide with the
pre-call values exactly when the callback started from the idle state;
they are not the pre-call values in general (see the counterexample). -/
theorem c1_callbacks_route_errors_and_reset_state :
    ∀ (s : UIState) (e : PyExn) (o : Option PyExn) (satList : List String) (newHtml : String),
      (genRoiClicked s (some e)).handled = [HandlerCall.generic e] ∧
      (genRoiClicked s o).state.cursor = "default" ∧
      (genRoiClicked s o).state.genDisabled = false ∧
      (extractShorelinesButtonClicked s (some e)).handled = [HandlerCall.generic e] ∧
      (extractShorelinesButtonClicked s o).state.cursor = "default" ∧
      (extractShorelinesButtonClicked s o).state.extractDisabled = false ∧
      (computeTransectButtonClicked s (some e)).handled = [HandlerCall.generic e] ∧
      (computeTransectButtonClicked s o).state.cursor = "default" ∧
      (computeTransectButtonClicked s o).state.computeDisabled = false ∧
      (downloadButtonClicked s o).state.cursor = "default" ∧
      (downloadButtonClicked s o).state.downloadDisabled = false ∧
      (satList ≠ [] →
        (saveSettingsClicked satList s (some e) newHtml).handled = [HandlerCall.generic e]) := by
  intro s e o satList newHtml
  refine ⟨rfl, ?_, ?_, rfl, ?_, ?_, rfl, ?_, ?_, ?_, ?_, ?_⟩
  all_goals first
    | (cases o with
        | none => rfl
        | some e2 => cases e2 <;> rfl)
    | (intro h; simp [saveSettingsClicked, h])

/-- Claim C1, witness for the amended theorem at a concrete input. -/
theorem c1_witness :
    (saveSettingsClicked ["L8"] ⟨"default", false, false, false, false, ""⟩
        (some (PyExn.exception "save failed")) "<h2>Settings</h2>").handled
      = [HandlerCall.generic (PyExn.exception "save failed")] :=
  (c1_callbacks_route_errors_and_reset_state ⟨"default", false, false, false, false, ""⟩
      (PyExn.exception "save failed") none ["L8"] "<h2>Settings</h2>").2.2.2.2.2.2.2.2.2.2.2
    (by decide)

/-- Claim C1, counterexample to the claim as stated: a callback entered
with a non-idle cursor does not restore the cursor to its pre-call
value; gen_roi_clicked entered with cursor wait ends with cursor
default. -/
theorem c1_counterexample :
    ¬ ((genRoiClicked ⟨"wait", false, false, false, false, ""⟩ none).state.cursor = "wait") := by
  decide

/-- Claim C2.  When coastseg_map.download_imagery raises a
google_auth_exceptions.RefreshError, the inner `except Exception` clause
of download_button_clicked catches it first, so the handler performs the
generic handle_exception call without the Authentication Error title;
the tailored outer branch is not reached. -/
theorem c2_refresh_error_takes_generic_path :
    ∀ (s : UIState) (m : String),
      (downloadButtonClicked s (some (PyExn.refreshError m))).handled
        = [HandlerCall.generic (PyExn.refreshError m)] := by
  intro s m
  rfl

/-- Claim C3.  For every button description the UI itself assigns to the
remove, load and save buttons, the substring dispatch selects exactly
one delegated coastseg_map call per click, whatever the outcome of that
call. -/
theorem c3_dispatch_selects_exactly_one_call :
    ∀ (beh : String → Option PyExn) (s : UIState) (d : String),
      (d ∈ removeButtonDescs → (removeFeatureFromMap d beh s).calls.length = 1) ∧
      (d ∈ loadButtonDescs → (loadButtonClicked d beh s).calls.length = 1) ∧
      (d ∈ saveButtonDescs → (saveToFileBtnClicked d beh s).calls.length = 1) := by
  intro beh s d
  refine ⟨?_, ?_, ?_⟩ <;> intro hd <;> fin_cases hd <;>
    first
      | (simp only [removeFeatureFromMap]
         exact runDelegated_len_one beh _ (by decide))
      | (simp only [loadButtonClicked]
         exact runDelegated_len_one beh _ (by decide))
      | (simp only [saveToFileBtnClicked]
         exact runDelegated_len_one beh _ (by decide))

/-- Claim C3, witness at a concrete description and behaviour. -/
theorem c3_witness :
    (removeFeatureFromMap "Remove Bbox" (fun _ => none)
        ⟨"default", false, false, false, false, ""⟩).calls.length = 1 :=
  (c3_dispatch_selects_exactly_one_call (fun _ => none)
      ⟨"default", false, false, false, false, ""⟩ "Remove Bbox").1 (by decide)

/-- Claim C7.  Every chooser created by create_file_chooser carries the
filter pattern restricted to geojson files, in particular the chooser of
on_load_configs_clicked and the chooser of load_feature_from_file for
any button description. -/
theorem c7_file_choosers_filter_geojson :
    ∀ (t : Option String) (d : String),
      (createFileChooser t).filterPattern = ["*.geojson"] ∧
      onLoadConfigsChooser.filterPattern = ["*.geojson"] ∧
      (loadFeatureFromFileChooser d).filterPattern = ["*.geojson"] := by
  intro t d
  exact ⟨rfl, rfl, rfl⟩

/-- Claim C8.  The maximum applied to both ROI area textboxes by
units_radio_changed is determined by the old selection index of the
units radio and not by the new one: old index 0 gives 980000000, old
index 1 gives 98, the result is independent of the new side of the
event, and a switch from index 0 to index 1 leaves the maxima at the
square-metre value 980000000. -/
theorem c8_units_radio_uses_old_index :
    ∀ (ch : RadioEvent),
      (ch.old.index = 0 → unitsRadioChanged ch = (980000000, 980000000)) ∧
      (ch.old.index = 1 → unitsRadioChanged ch = (98, 98)) ∧
      (∀ ch2 : RadioEvent, ch2.old = ch.old → unitsRadioChanged ch2 = unitsRadioChanged ch) ∧
      (ch.old.index = 0 → ch.new.index = 1 → unitsRadioChanged ch = (980000000, 980000000)) := by
  intro ch
  refine ⟨?_, ?_, ?_, ?_⟩
  · intro h; simp [unitsRadioChanged, h]
  · intro h; simp [unitsRadioChanged, h]
  · intro ch2 h; simp [unitsRadioChanged, h]
  · intro h _; simp [unitsRadioChanged, h]

/-- Claim C8, witness: the event switching from square metres (old index
0) to square kilometres (new index 1) keeps both maxima at the
square-metre value. -/
theorem c8_witness : unitsRadioChanged ⟨⟨0⟩, ⟨1⟩⟩ = (980000000, 980000000) :=
  (c8_units_radio_uses_old_index ⟨⟨0⟩, ⟨1⟩⟩).2.2.2 rfl rfl

/-- Claim C9.  A Save Settings click with an empty satellite selection
never calls coastseg_map.save_settings, leaves the whole UI state
including the settings HTML unchanged, and routes exactly one exception
with the required message to handle_exception. -/
theorem c9_save_settings_requires_satellite :
    ∀ (s : UIState) (o : Option PyExn) (newHtml : String),
      (saveSettingsClicked [] s o newHtml).calls = [] ∧
      (saveSettingsClicked [] s o newHtml).state = s ∧
      (saveSettingsClicked [] s o newHtml).handled
        = [HandlerCall.generic (PyExn.exception "Must select at least one satellite first")] := by
  intro s o newHtml
  refine ⟨?_, ?_, ?_⟩ <;> simp [saveSettingsClicked]

/-! ### Claims about the common module (spec-modelled) -/

/-- Claim C4.  With rois None or empty and an epsg_code supplied,
create_config_gdf returns the empty config geodataframe carrying the
requested CRS and raises nothing; with rois None or empty and no
epsg_code, it raises a ValueError. -/
theorem c4_create_config_gdf_empty_inputs :
    ∀ (epsg : Nat) (g : GeoDataFrame),
      (create_config_gdf none none none none (some epsg) = .ok ⟨[], epsg⟩) ∧
      (g.rows = [] → create_config_gdf (some g) none none none (some epsg) = .ok ⟨[], epsg⟩) ∧
      (create_config_gdf none none none none none
        = .error "ValueError: epsg_code must be provided when rois is None or empty") ∧
      (g.rows = [] → create_config_gdf (some g) none none none none
        = .error "ValueError: epsg_code must be provided when rois is None or empty") := by
  intro epsg g
  refine ⟨rfl, ?_, rfl, ?_⟩
  · intro h
    simp [create_config_gdf, assembleConfig, set_crs_or_initialize_empty, tagWithType, h]
  · intro h
    simp [create_config_gdf, h]

/-- Claim C4, witness at a concrete empty rois geodataframe. -/
theorem c4_witness :
    (create_config_gdf (some ⟨[], 4326⟩) none none none (some 3857) = .ok ⟨[], 3857⟩) ∧
    (create_config_gdf (some ⟨[], 4326⟩) none none none none
      = .error "ValueError: epsg_code must be provided when rois is None or empty") :=
  ⟨(c4_create_config_gdf_empty_inputs 3857 ⟨[], 4326⟩).2.1 rfl,
   (c4_create_config_gdf_empty_inputs 3857 ⟨[], 4326⟩).2.2.2 rfl⟩

/-- Membership in a tagged, normalized input of create_config_gdf: a row
is in it exactly when its type is the tag of that input and its geometry
is one of the rows of the input. -/
theorem mem_tag_norm (row : TaggedRow) (ty : String) (o : Option GeoDataFrame) (epsg : Nat) :
    row ∈ tagWithType ty (set_crs_or_initialize_empty o epsg) ↔
      row.ftype = ty ∧ row.geomId ∈ rowIds o := by
  obtain ⟨ft, id⟩ := row
  cases o with
  | none => simp [tagWithType, set_crs_or_initialize_empty, rowIds]
  | some gr =>
    simp only [tagWithType, set_crs_or_initialize_empty, rowIds, List.mem_map]
    constructor
    · rintro ⟨f, hf, hrow⟩
      cases hrow
      exact ⟨rfl, ⟨f, hf, rfl⟩⟩
    · rintro ⟨hft, f, hf, hid⟩
      exact ⟨f, hf, by cases hft; cases hid; rfl⟩

/-- Some geometry identifier exists for an optional input exactly when
the input is non-None and non-empty. -/
theorem exists_id_iff_hasRows (o : Option GeoDataFrame) :
    (∃ id, id ∈ rowIds o) ↔ hasRows o = true := by
  cases o with
  | none => simp [rowIds, hasRows]
  | some gr =>
    cases h : gr.rows with
    | nil => simp [rowIds, hasRows, h]
    | cons f rest => simp [rowIds, hasRows, h]

/-- Filtering a tagged, normalized input by a type value keeps everything
when the tag matches and nothing otherwise. -/
theorem filter_tag_norm (ty ty2 : String) (o : Option GeoDataFrame) (epsg : Nat) :
    (tagWithType ty (set_crs_or_initialize_empty o epsg)).filter
        (fun row => row.ftype == ty2) =
      if ty = ty2 then tagWithType ty (set_crs_or_initialize_empty o epsg) else [] := by
  cases o with
  | none => simp [tagWithType, set_crs_or_initialize_empty]
  | some gr =>
    simp only [tagWithType, set_crs_or_initialize_empty]
    induction gr.rows with
    | nil => simp
    | cons f rest ih =>
      by_cases h : ty = ty2
      · subst h; simp
      · simp only [List.map_cons, List.filter_cons] at ih ⊢
        simp [h, beq_iff_eq, ih]

/-- The geometry identifiers of a tagged, normalized input are those of
the input. -/
theorem map_geomId_tag_norm (ty : String) (o : Option GeoDataFrame) (epsg : Nat) :
    (tagWithType ty (set_crs_or_initialize_empty o epsg)).map TaggedRow.geomId = rowIds o := by
  cases o with
  | none => simp [tagWithType, set_crs_or_initialize_empty, rowIds]
  | some gr => simp [tagWithType, set_crs_or_initialize_empty, rowIds, List.map_map]

/-- A row of some type value exists in an append exactly when it exists
in one of the parts. -/
theorem exists_ftype_append (l1 l2 : List TaggedRow) (ty : String) :
    (∃ row ∈ l1 ++ l2, row.ftype = ty) ↔
      (∃ row ∈ l1, row.ftype = ty) ∨ (∃ row ∈ l2, row.ftype = ty) := by
  simp [List.mem_append, or_and_right, exists_or]

/-- A row of some type value exists in a tagged, normalized input exactly
when the tag is that value and the input is non-None and non-empty. -/
theorem exists_ftype_tag_norm (ty ty2 : String) (o : Option GeoDataFrame) (epsg : Nat) :
    (∃ row ∈ tagWithType ty (set_crs_or_initialize_empty o epsg), row.ftype = ty2) ↔
      (ty = ty2 ∧ hasRows o = true) := by
  constructor
  · rintro ⟨row, hrow, hft⟩
    rw [mem_tag_norm] at hrow
    exact ⟨hrow.1.symm.trans hft, (exists_id_iff_hasRows o).mp ⟨row.geomId, hrow.2⟩⟩
  · rintro ⟨rfl, hh⟩
    obtain ⟨id, hid⟩ := (exists_id_iff_hasRows o).mpr hh
    exact ⟨⟨ty, id⟩, (mem_tag_norm _ _ _ _).mpr ⟨rfl, hid⟩, rfl⟩

/-- Claim C5.  For every combination of the four optional inputs of
create_config_gdf, every row of the result carries one of the four type
values; the rows carrying the type of an input are exactly the rows of
that input, in order; and a type value is present in the result exactly
when the corresponding input was non-None and non-empty. -/
theorem c5_config_gdf_type_tags :
    ∀ (r s t b : Option GeoDataFrame) (epsg : Nat) (g : ConfigGdf),
      create_config_gdf r s t b (some epsg) = .ok g →
      ((∃ row ∈ g.rows, row.ftype = "roi") ↔ hasRows r = true) ∧
      ((∃ row ∈ g.rows, row.ftype = "shoreline") ↔ hasRows s = true) ∧
      ((∃ row ∈ g.rows, row.ftype = "transect") ↔ hasRows t = true) ∧
      ((∃ row ∈ g.rows, row.ftype = "bbox") ↔ hasRows b = true) ∧
      ((g.rows.filter (fun row => row.ftype == "roi")).map TaggedRow.geomId = rowIds r) ∧
      ((g.rows.filter (fun row => row.ftype == "shoreline")).map TaggedRow.geomId = rowIds s) ∧
      ((g.rows.filter (fun row => row.ftype == "transect")).map TaggedRow.geomId = rowIds t) ∧
      ((g.rows.filter (fun row => row.ftype == "bbox")).map TaggedRow.geomId = rowIds b) ∧
      (∀ row ∈ g.rows,
        row.ftype = "roi" ∨ row.ftype = "shoreline" ∨ row.ftype = "transect" ∨
          row.ftype = "bbox") := by
  intro r s t b epsg g h
  obtain rfl : g = assembleConfig r s t b epsg := (Except.ok.inj h).symm
  have key : ∀ ty2 : String,
      (∃ row ∈ (assembleConfig r s t b epsg).rows, row.ftype = ty2) ↔
        (("roi" = ty2 ∧ hasRows r = true) ∨ ("shoreline" = ty2 ∧ hasRows s = true) ∨
          ("transect" = ty2 ∧ hasRows t = true) ∨ ("bbox" = ty2 ∧ hasRows b = true)) := by
    intro ty2
    simp only [assembleConfig]
    rw [exists_ftype_append, exists_ftype_append, exists_ftype_append,
      exists_ftype_tag_norm, exists_ftype_tag_norm, exists_ftype_tag_norm,
      exists_ftype_tag_norm]
    tauto
  refine ⟨?_, ?_, ?_, ?_, ?_, ?_, ?_, ?_, ?_⟩
  · rw [key]; simp
  · rw [key]; simp
  · rw [key]; simp
  · rw [key]; simp
  · simp [assembleConfig, List.filter_append, filter_tag_norm, List.map_append,
      map_geomId_tag_norm]
  · simp [assembleConfig, List.filter_append, filter_tag_norm, List.map_append,
      map_geomId_tag_norm]
  · simp [assembleConfig, List.filter_append, filter_tag_norm, List.map_append,
      map_geomId_tag_norm]
  · simp [assembleConfig, List.filter_append, filter_tag_norm, List.map_append,
      map_geomId_tag_norm]
  · intro row hrow
    simp only [assembleConfig, List.mem_append] at hrow
    rcases hrow with ((h1 | h1) | h1) | h1
    · exact Or.inl ((mem_tag_norm row _ _ _).mp h1).1
    · exact Or.inr (Or.inl ((mem_tag_norm row _ _ _).mp h1).1)
    · exact Or.inr (Or.inr (Or.inl ((mem_tag_norm row _ _ _).mp h1).1))
    · exact Or.inr (Or.inr (Or.inr ((mem_tag_norm row _ _ _).mp h1).1))

/-- Claim C5, witness: a concrete call with non-empty rois, empty
shorelines, a transect input and no bbox. -/
theorem c5_witness :
    ((∃ row ∈ (ConfigGdf.mk [⟨"roi", 1⟩, ⟨"roi", 2⟩, ⟨"transect", 7⟩] 3857).rows,
        row.ftype = "roi") ↔
      hasRows (some ⟨[⟨1⟩, ⟨2⟩], 4326⟩) = true) ∧
    ((∃ row ∈ (ConfigGdf.mk [⟨"roi", 1⟩, ⟨"roi", 2⟩, ⟨"transect", 7⟩] 3857).rows,
        row.ftype = "shoreline") ↔
      hasRows (some ⟨[], 4326⟩) = true) :=
  ⟨((c5_config_gdf_type_tags (some ⟨[⟨1⟩, ⟨2⟩], 4326⟩) (some ⟨[], 4326⟩)
      (some ⟨[⟨7⟩], 4326⟩) none 3857 ⟨[⟨"roi", 1⟩, ⟨"roi", 2⟩, ⟨"transect", 7⟩], 3857⟩
      rfl).1),
   ((c5_config_gdf_type_tags (some ⟨[⟨1⟩, ⟨2⟩], 4326⟩) (some ⟨[], 4326⟩)
      (some ⟨[⟨7⟩], 4326⟩) none 3857 ⟨[⟨"roi", 1⟩, ⟨"roi", 2⟩, ⟨"transect", 7⟩], 3857⟩
      rfl).2.1)⟩

/-- Claim C6.  get_roi_area computes the area only after reprojecting to
the UTM EPSG code derived from the geometry location; that code is
32600 plus the UTM zone number of the longitude for non-negative
latitudes and 32700 plus it for negative latitudes, and the zone number
always lies between 1 and 60. -/
theorem c6_roi_area_uses_local_utm :
    ∀ (areaInEpsg : Nat → GeoPoint → ℚ) (g : GeoPoint),
      get_roi_area areaInEpsg g = areaInEpsg (get_epsg_from_geometry g) g ∧
      (0 ≤ g.lat → get_epsg_from_geometry g = 32600 + utmZoneNumber g.lon) ∧
      (g.lat < 0 → get_epsg_from_geometry g = 32700 + utmZoneNumber g.lon) ∧
      1 ≤ utmZoneNumber g.lon ∧ utmZoneNumber g.lon ≤ 60 := by
  intro areaInEpsg g
  have h0 : (0 : Int) ≤ (Int.floor ((g.lon + 180) / 6)).emod 60 :=
    Int.emod_nonneg _ (by norm_num)
  have h1 : (Int.floor ((g.lon + 180) / 6)).emod 60 < 60 :=
    Int.emod_lt_of_pos _ (by norm_num)
  refine ⟨rfl, ?_, ?_, ?_, ?_⟩
  · intro h
    simp [get_epsg_from_geometry, convert_wgs_to_utm, h]
  · intro h
    simp [get_epsg_from_geometry, convert_wgs_to_utm, not_le.mpr h]
  · unfold utmZoneNumber
    omega
  · unfold utmZoneNumber
    omega

/-- Claim C6, witness: the test locations, New York City in the northern
hemisphere giving EPSG 32618 and Buenos Aires in the southern hemisphere
giving EPSG 32721. -/
theorem c6_witness :
    (get_epsg_from_geometry ⟨-74006 / 1000, 407128 / 10000⟩
      = 32600 + utmZoneNumber (-74006 / 1000)) ∧
    (32600 + utmZoneNumber ((-74006 : ℚ) / 1000) = 32618) ∧
    (get_epsg_from_geometry ⟨-583816 / 10000, -346037 / 10000⟩
      = 32700 + utmZoneNumber (-583816 / 10000)) ∧
    (32700 + utmZoneNumber ((-583816 : ℚ) / 10000) = 32721) :=
  ⟨(c6_roi_area_uses_local_utm (fun _ _ => 0) ⟨-74006 / 1000, 407128 / 10000⟩).2.1
      (by norm_num),
   by norm_num [utmZoneNumber]; decide,
   (c6_roi_area_uses_local_utm (fun _ _ => 0) ⟨-583816 / 10000, -346037 / 10000⟩).2.2.1
      (by norm_num),
   by norm_num [utmZoneNumber]; decide⟩

/-! ### Claim C10: the settings HTML view -/

/-- The paragraph list view of the settings template: one paragraph per
displayed key, in order, each closed by the paragraph end tag and the
line break and indentation of the template. -/
def settingsParagraphs (settings : List (String × String)) : List String → String
  | [] => ""
  | k :: rest =>
    "<p>" ++ k ++ ": " ++ settingValue settings k ++ "</p>\n        " ++
      settingsParagraphs settings rest

set_option maxRecDepth 4000 in
/-- The settings HTML is the header followed by one paragraph per
displayed key. -/
theorem getSettingsHtml_paragraphs (settings : List (String × String)) :
    getSettingsHtml settings =
      " \n        <h2>Settings</h2>\n        " ++
        settingsParagraphs settings displayedSettingsKeys := by
  unfold getSettingsHtml displayedSettingsKeys
  simp only [settingsParagraphs]
  apply String.ext
  simp only [String.data_append]
  simp [List.append_assoc]

/-- Every key of the paragraph list renders as a paragraph segment inside
any string that ends with those paragraphs. -/
theorem strContains_paragraphs (settings : List (String × String)) :
    ∀ (keys : List String) (k : String), k ∈ keys → ∀ (pre : String),
      strContains (pre ++ settingsParagraphs settings keys)
        ("<p>" ++ k ++ ": " ++ settingValue settings k ++ "</p>") := by
  intro keys
  induction keys with
  | nil => intro k hk; cases hk
  | cons h0 t ih =>
    intro k hk pre
    rcases List.mem_cons.mp hk with rfl | hk2
    · unfold strContains
      refine ⟨pre.data, ("\n        " ++ settingsParagraphs settings t).data, ?_⟩
      simp only [settingsParagraphs, String.data_append]
      simp [List.append_assoc]
    · have heq : pre ++ settingsParagraphs settings (h0 :: t)
          = (pre ++ ("<p>" ++ h0 ++ ": " ++ settingValue settings h0 ++ "</p>\n        "))
              ++ settingsParagraphs settings t := by
        simp only [settingsParagraphs]
        simp [String.append_assoc]
      rw [heq]
      exact ih k hk2 _

/-- Claim C10.  get_settings_html is a total pure function of the
settings dictionary (it is embedded as such, defined for every
association list and leaving it untouched), and for every settings
dictionary, each of the 14 displayed keys renders inside the produced
HTML as a paragraph holding the value stored under the key when the key
is present and the literal string unknown when it is absent, which is
exactly the defaultdict lookup settingValue. -/
theorem c10_settings_html_renders :
    ∀ (settings : List (String × String)) (k : String),
      k ∈ displayedSettingsKeys →
      strContains (getSettingsHtml settings)
        ("<p>" ++ k ++ ": " ++ settingValue settings k ++ "</p>") := by
  intro settings k hk
  rw [getSettingsHtml_paragraphs]
  exact strContains_paragraphs settings displayedSettingsKeys k hk _

/-- Claim C10, witness: a present key renders its stored value and an
absent key renders unknown, at a concrete one-entry dictionary. -/
theorem c10_witness :
    strContains (getSettingsHtml [("sand_color", "dark")])
      ("<p>" ++ "sand_color" ++ ": " ++ settingValue [("sand_color", "dark")] "sand_color"
        ++ "</p>") ∧
    strContains (getSettingsHtml [("sand_color", "dark")])
      ("<p>" ++ "along_dist" ++ ": " ++ settingValue [("sand_color", "dark")] "along_dist"
        ++ "</p>") :=
  ⟨c10_settings_html_renders [("sand_color", "dark")] "sand_color" (by decide),
   c10_settings_html_renders [("sand_color", "dark")] "along_dist" (by decide)⟩
